import Mathlib

/-
  Verification of the smart-content-moderator-api moderation core.

  Shallow embedding of:
  - app/core/security.py      : sanitize_input, create_content_hash (SHA-256)
  - app/services/moderation_service.py : handle_text_moderation (dedup lookup,
    pending/completed/failed lifecycle, classifier invocation, notification
    scheduling)
  - app/services/notification_service.py : per-channel retry loop with
    exponential backoff, attempt logging, and the alert dispatcher
  - app/models/*.py           : ModerationRequest / ModerationResult /
    NotificationLog rows

  Modelling conventions:
  - uuid4 primary keys are modelled as freshly allocated Nat ids.
  - The SQLAlchemy session is modelled as an explicit store (lists of rows in
    insertion order); an unordered `.first()` query returns the head of the
    rows matching the filter, in insertion order (SQLite rowid order).
  - db.add/db.commit are modelled as always succeeding; the SQLAlchemyError
    branches of the source (DatabaseException "create_request"/"save_result")
    are outside the scope of the claims settled here.
  - External effects (HTTP posts of the classifier and of the notification
    channels) are oracles passed in as functions.
-/

set_option linter.unusedVariables false

namespace ContentModerator

/-! ## app/core/security.py : sanitize_input -/

/-- Python whitespace (`\s` in `re` on `str`, and `str.strip()` /
`str.isspace()`): ASCII space, TAB, LF, VT, FF, CR, the C1 separators
x1C-x1F, NEL, NBSP and the Unicode space separators. -/
def isPySpace (c : Char) : Bool :=
  let n := c.toNat
  n == 0x20 || n == 0x09 || n == 0x0A || n == 0x0B || n == 0x0C || n == 0x0D ||
  (0x1C ≤ n && n ≤ 0x1F) || n == 0x85 || n == 0xA0 || n == 0x1680 ||
  (0x2000 ≤ n && n ≤ 0x200A) || n == 0x2028 || n == 0x2029 || n == 0x202F ||
  n == 0x205F || n == 0x3000

/-- The character class removed by
`re.sub(r'[\x00-\x08\x0B\x0C\x0E-\x1F\x7F]', '', text)` in sanitize_input.
Note x09 (TAB), x0A (LF) and x0D (CR) are not in the class. -/
def isStrippedControl (c : Char) : Bool :=
  let n := c.toNat
  n ≤ 0x08 || n == 0x0B || n == 0x0C || (0x0E ≤ n && n ≤ 0x1F) || n == 0x7F

/-- Helper for the greedy `re.sub(r'\s{3,}', '  ', text)` pass: `run` holds the
whitespace run read so far (reversed); a maximal run of length ≥ 3 is replaced
by two spaces, shorter runs are kept verbatim. -/
def emitWsRun (run : List Char) : List Char :=
  if run.length ≥ 3 then [' ', ' '] else run.reverse

def collapseWsAux (run : List Char) : List Char → List Char
  | [] => emitWsRun run
  | c :: cs =>
    if isPySpace c then collapseWsAux (c :: run) cs
    else emitWsRun run ++ c :: collapseWsAux [] cs

/-- `re.sub(r'\s{3,}', '  ', text)`: every maximal run of 3 or more whitespace
characters becomes two spaces. -/
def collapseWs (l : List Char) : List Char :=
  collapseWsAux [] l

/-- Python `str.strip()`: drop leading and trailing whitespace. -/
def pyStrip (l : List Char) : List Char :=
  ((l.dropWhile isPySpace).reverse.dropWhile isPySpace).reverse

/-- app/core/security.py lines 211-233, `sanitize_input`:
empty input short-circuits to ""; then null bytes are removed, the control
class is removed, runs of 3+ whitespace collapse to two spaces, and the result
is stripped. -/
def sanitize_input (s : String) : String :=
  if s == "" then ""
  else
    let t1 := s.data.filter (fun c => c.toNat != 0x00)
    let t2 := t1.filter (fun c => !(isStrippedControl c))
    String.mk (pyStrip (collapseWs t2))

/-! ## app/core/security.py : create_content_hash (SHA-256 of the UTF-8 bytes) -/

/-- UTF-8 encoding of one code point, as byte values. -/
def utf8EncodeCharNat (n : Nat) : List Nat :=
  if n < 0x80 then [n]
  else if n < 0x800 then
    [0xC0 ||| (n >>> 6), 0x80 ||| (n &&& 0x3F)]
  else if n < 0x10000 then
    [0xE0 ||| (n >>> 12), 0x80 ||| ((n >>> 6) &&& 0x3F), 0x80 ||| (n &&& 0x3F)]
  else
    [0xF0 ||| (n >>> 18), 0x80 ||| ((n >>> 12) &&& 0x3F),
     0x80 ||| ((n >>> 6) &&& 0x3F), 0x80 ||| (n &&& 0x3F)]

/-- Python `content.encode('utf-8')`. -/
def utf8Bytes (s : String) : List Nat :=
  s.data.flatMap (fun c => utf8EncodeCharNat c.toNat)

def w32 (n : Nat) : Nat := n % 4294967296

def rotr32 (k x : Nat) : Nat := w32 ((x >>> k) ||| (x <<< (32 - k)))

/-- The 64 SHA-256 round constants of FIPS 180-4, written in decimal. -/
def sha256K : List Nat :=
  [1116352408, 1899447441, 3049323471, 3921009573, 961987163,
   1508970993, 2453635748, 2870763221, 3624381080, 310598401,
   607225278, 1426881987, 1925078388, 2162078206, 2614888103,
   3248222580, 3835390401, 4022224774, 264347078, 604807628,
   770255983, 1249150122, 1555081692, 1996064986, 2554220882,
   2821834349, 2952996808, 3210313671, 3336571891, 3584528711,
   113926993, 338241895, 666307205, 773529912, 1294757372,
   1396182291, 1695183700, 1986661051, 2177026350, 2456956037,
   2730485921, 2820302411, 3259730800, 3345764771, 3516065817,
   3600352804, 4094571909, 275423344, 430227734, 506948616,
   659060556, 883997877, 958139571, 1322822218, 1537002063,
   1747873779, 1955562222, 2024104815, 2227730452, 2361852424,
   2428436474, 2756734187, 3204031479, 3329325298]

/-- The eight SHA-256 initial hash values of FIPS 180-4, in decimal. -/
def sha256H0 : List Nat :=
  [1779033703, 3144134277, 1013904242, 2773480762,
   1359893119, 2600822924, 528734635, 1541459225]

def bigSigma0 (x : Nat) : Nat := rotr32 2 x ^^^ rotr32 13 x ^^^ rotr32 22 x
def bigSigma1 (x : Nat) : Nat := rotr32 6 x ^^^ rotr32 11 x ^^^ rotr32 25 x
def smallSigma0 (x : Nat) : Nat := rotr32 7 x ^^^ rotr32 18 x ^^^ (x >>> 3)
def smallSigma1 (x : Nat) : Nat := rotr32 17 x ^^^ rotr32 19 x ^^^ (x >>> 10)
def sha256Ch (x y z : Nat) : Nat := (x &&& y) ^^^ ((0xFFFFFFFF ^^^ x) &&& z)
def sha256Maj (x y z : Nat) : Nat := (x &&& y) ^^^ (x &&& z) ^^^ (y &&& z)

/-- Appends the 0x80 byte, zero padding to 56 mod 64, and the 64-bit
big-endian bit length. -/
def sha256Pad (msg : List Nat) : List Nat :=
  let bitLen := 8 * msg.length
  let padZeros := (119 - msg.length % 64) % 64
  msg ++ [0x80] ++ List.replicate padZeros 0 ++
    [(bitLen >>> 56) % 256, (bitLen >>> 48) % 256, (bitLen >>> 40) % 256,
     (bitLen >>> 32) % 256, (bitLen >>> 24) % 256, (bitLen >>> 16) % 256,
     (bitLen >>> 8) % 256, bitLen % 256]

/-- Splits the padded message into 64-byte blocks; the fuel argument (any
bound on the number of blocks, e.g. the list length) makes the recursion
structural. -/
def chunks64 : Nat → List Nat → List (List Nat)
  | 0, _ => []
  | _, [] => []
  | fuel + 1, l => l.take 64 :: chunks64 fuel (l.drop 64)

def bytesToWords : List Nat → List Nat
  | b0 :: b1 :: b2 :: b3 :: rest =>
      ((b0 <<< 24) ||| (b1 <<< 16) ||| (b2 <<< 8) ||| b3) :: bytesToWords rest
  | _ => []

/-- Extends the 16 message words of one block to the 64-entry schedule. -/
def sha256Extend (w0 : Array Nat) : Array Nat :=
  (List.range 48).foldl
    (fun w i =>
      let t := i + 16
      w.push (w32 (smallSigma1 (w.getD (t - 2) 0) + w.getD (t - 7) 0 +
        smallSigma0 (w.getD (t - 15) 0) + w.getD (t - 16) 0)))
    w0

/-- One SHA-256 compression round sequence over a 64-word schedule. -/
def sha256Compress (h : List Nat) (w : Array Nat) : List Nat :=
  match h with
  | [a0, b0, c0, d0, e0, f0, g0, h0] =>
    let step := fun (s : Nat × Nat × Nat × Nat × Nat × Nat × Nat × Nat) (i : Nat) =>
      let (a, b, c, d, e, f, g, hh) := s
      let t1 := w32 (hh + bigSigma1 e + sha256Ch e f g + sha256K.getD i 0 + w.getD i 0)
      let t2 := w32 (bigSigma0 a + sha256Maj a b c)
      (w32 (t1 + t2), a, b, c, w32 (d + t1), e, f, g)
    let r := (List.range 64).foldl step (a0, b0, c0, d0, e0, f0, g0, h0)
    match r with
    | (a, b, c, d, e, f, g, hh) =>
      [w32 (a0 + a), w32 (b0 + b), w32 (c0 + c), w32 (d0 + d),
       w32 (e0 + e), w32 (f0 + f), w32 (g0 + g), w32 (h0 + hh)]
  | _ => h

def sha256Words (msg : List Nat) : List Nat :=
  let padded := sha256Pad msg
  (chunks64 padded.length padded).foldl
    (fun h chunk => sha256Compress h (sha256Extend (Array.mk (bytesToWords chunk))))
    sha256H0

def hexDigit (n : Nat) : Char :=
  if n < 10 then Char.ofNat (48 + n) else Char.ofNat (87 + n)

def word32Hex (n : Nat) : List Char :=
  [hexDigit ((n >>> 28) % 16), hexDigit ((n >>> 24) % 16),
   hexDigit ((n >>> 20) % 16), hexDigit ((n >>> 16) % 16),
   hexDigit ((n >>> 12) % 16), hexDigit ((n >>> 8) % 16),
   hexDigit ((n >>> 4) % 16), hexDigit (n % 16)]

def sha256Hex (msg : List Nat) : String :=
  String.mk ((sha256Words msg).flatMap word32Hex)

/-- app/core/security.py lines 291-301, `create_content_hash`:
`hashlib.sha256(content.encode('utf-8')).hexdigest()`. -/
def create_content_hash (content : String) : String :=
  sha256Hex (utf8Bytes content)

/-- app/services/moderation_service.py lines 33-43, `hash_content`. -/
def hash_content (content : String) : String :=
  create_content_hash content

/-! ## app/models : rows and the store -/

/-- app/models/moderation_request.py, `ContentType`. -/
inductive ContentType
  | text
  | image
deriving DecidableEq, Repr

/-- app/models/moderation_request.py, `RequestStatus`. -/
inductive RequestStatus
  | pending
  | completed
  | failed
deriving DecidableEq, Repr

/-- Python `RequestStatus.<x>.value` (`str`-valued enum). -/
def RequestStatus.value : RequestStatus → String
  | .pending => "pending"
  | .completed => "completed"
  | .failed => "failed"

/-- app/models/moderation_request.py, `ModerationRequest` row.
The uuid4 primary key is modelled as a Nat allocated from the store's
fresh-id counter. -/
structure ModerationRequest where
  id : Nat
  user_email : String
  content_type : ContentType
  content_hash : String
  status : RequestStatus
deriving DecidableEq, Repr

/-- app/models/moderation_result.py, `ModerationResult` row. The raw
`llm_response` JSON payload is opaque to the core and modelled as a String. -/
structure ModerationResult where
  id : Nat
  request_id : Nat
  classification : String
  confidence : Rat
  reasoning : String
  llm_response : String
deriving DecidableEq, Repr

/-- app/models/notification_log.py, `NotificationLog` row
(the spec's NotificationAttempt). -/
structure NotificationLog where
  request_id : Nat
  channel : String
  status : String
deriving DecidableEq, Repr

/-- The persistent store: one table per model, rows in insertion order,
plus the fresh-id counter standing in for uuid4 generation. -/
structure DB where
  requests : List ModerationRequest
  results : List ModerationResult
  notification_logs : List NotificationLog
  next_id : Nat
deriving DecidableEq, Repr

/-- moderation_service.py lines 96-99 (and 333-336 for images):
`db.query(ModerationRequest).filter(ModerationRequest.content_hash == h,
ModerationRequest.user_email == e).first()`. The filter does NOT mention the
status column; `.first()` without order_by returns the first matching row in
insertion (rowid) order. -/
def queryFirstRequest (db : DB) (content_hash user_email : String) :
    Option ModerationRequest :=
  (db.requests.filter
    (fun r => r.content_hash == content_hash && r.user_email == user_email)).head?

/-- Lines 96-101: the dedup check as the handler performs it — take the first
row matching (content_hash, user_email) and treat it as a cache hit only when
its status is `completed`. -/
def dedupHit (db : DB) (user_email content_hash : String) :
    Option ModerationRequest :=
  match queryFirstRequest db content_hash user_email with
  | some r => if r.status = RequestStatus.completed then some r else none
  | none => none

/-- The `ModerationRequest.results` relationship
(app/models/moderation_request.py line 33): declared without `uselist=False`
on the one-to-many side, so it materialises as the LIST of result rows whose
`request_id` references this request. -/
def requestResults (db : DB) (req : ModerationRequest) : List ModerationResult :=
  db.results.filter (fun r => r.request_id == req.id)

/-- moderation_service.py lines 110-117 read
`result = existing_request.results` and then `result.classification`,
`result.confidence`, `result.reasoning`, `result.llm_response`.
Since `results` is the relationship LIST (an SQLAlchemy InstrumentedList),
a Python list has none of these attributes: the first access raises
`AttributeError` whatever the list contains, so no attribute tuple is ever
produced. `none` models the raised AttributeError. -/
def scalarResultAttrs (rs : List ModerationResult) :
    Option (String × Rat × String × String) :=
  none

/-! ## app/services/moderation_service.py : handle_text_moderation -/

/-- app/schemas/moderation.py, `ModerationTextRequest`. -/
structure ModerationTextRequest where
  email : String
  content : String
deriving DecidableEq, Repr

/-- app/schemas/moderation.py, `ModerationImageRequest`. -/
structure ModerationImageRequest where
  email : String
  image_url : String
deriving DecidableEq, Repr

/-- app/schemas/moderation.py, `ModerationResultResponse`. -/
structure ModerationResultResponse where
  request_id : Nat
  classification : String
  confidence : Rat
  reasoning : String
  status : String
  llm_response : String
deriving DecidableEq, Repr

/-- app/core/exceptions.py: the typed exceptions the handler can raise.
Each carries the discriminating field of the Python class
(`field` / `operation` / the message of the LLMServiceException). -/
inductive ModException
  | validationError (field : String)
  | databaseError (operation : String)
  | llmServiceError (message : String)
deriving DecidableEq, Repr

/-- The classifier gateway and the security validators the handler imports;
they are external collaborators of the lifecycle code, modelled as the
environment the handler runs in. `classify_text` returns the
`(classification, confidence, reasoning, llm_response)` tuple of
app/clients/llm_client.py, or the exception it raised. -/
structure TextModerationEnv where
  validate_email : String → Bool
  validate_text_content : String → Bool × Option String
  classify_text : String → Except String (String × Rat × String × String)

/-- The observable steps of one handler run, in program order. -/
inductive ModEvent
  | commitPendingRequest (request_id : Nat)
  | classifyCall (payload : String)
  | commitFailedStatus (request_id : Nat)
  | commitResult (request_id : Nat)
  | scheduleAlert (to_email classification reasoning : String) (request_id : Nat)
deriving DecidableEq, Repr

/-- One `background_tasks.add_task(send_inappropriate_content_alert, ...)`
registration (lines 249-256). -/
structure AlertTask where
  to_email : String
  classification : String
  reasoning : String
  request_id : Nat
deriving DecidableEq, Repr

deriving instance DecidableEq for Except

/-- Result of one handler run: the returned response or raised exception, the
store afterwards, the scheduled background tasks, and the event trace. -/
structure TextModerationRun where
  response : Except ModException ModerationResultResponse
  db : DB
  background_tasks : List AlertTask
  events : List ModEvent
deriving DecidableEq, Repr

/-- moderation_service.py line 189 / 209: `moderation_request.status = ...`
followed by `db.commit()`. -/
def setRequestStatus (db : DB) (id : Nat) (st : RequestStatus) : DB :=
  { db with requests :=
      db.requests.map (fun r => if r.id == id then { r with status := st } else r) }

/-- Lines 120-265 (shared with the image handler's lines 357-502): the cache
miss path. A `pending` request row is added and committed, then the classifier
is invoked on `payload`; on exception the request is committed as `failed` and
LLMServiceException raised (no result row); on success the result row is
committed together with the `completed` transition, and an alert task is
scheduled when the classification is not "safe". -/
def moderateFresh (classify : String → Except String (String × Rat × String × String))
    (email payload content_hash : String) (ctype : ContentType) (db : DB) :
    TextModerationRun :=
  let req : ModerationRequest :=
    { id := db.next_id, user_email := email, content_type := ctype,
      content_hash := content_hash, status := RequestStatus.pending }
  let db1 : DB := { db with requests := db.requests ++ [req], next_id := db.next_id + 1 }
  let ev0 := [ModEvent.commitPendingRequest req.id, ModEvent.classifyCall payload]
  match classify payload with
  | .error e =>
    let db2 := setRequestStatus db1 req.id RequestStatus.failed
    { response := .error (.llmServiceError ("Text classification failed: " ++ e)),
      db := db2, background_tasks := [],
      events := ev0 ++ [ModEvent.commitFailedStatus req.id] }
  | .ok (classification, confidence, reasoning, llm_response) =>
    let res : ModerationResult :=
      { id := db1.next_id, request_id := req.id, classification := classification,
        confidence := confidence, reasoning := reasoning, llm_response := llm_response }
    let db2 := setRequestStatus
      { db1 with results := db1.results ++ [res], next_id := db1.next_id + 1 }
      req.id RequestStatus.completed
    let flagged := classification != "safe"
    { response := .ok
        { request_id := req.id, classification := classification,
          confidence := confidence, reasoning := reasoning,
          status := RequestStatus.completed.value, llm_response := llm_response },
      db := db2,
      background_tasks :=
        if flagged then
          [{ to_email := email, classification := classification,
             reasoning := reasoning, request_id := req.id }]
        else [],
      events := ev0 ++ [ModEvent.commitResult req.id] ++
        (if flagged then
          [ModEvent.scheduleAlert email classification reasoning req.id]
         else []) }

/-- moderation_service.py lines 46-281, `handle_text_moderation`.
Control flow: email validation, sanitize + content validation, fingerprint of
the sanitized content, dedup lookup, then either the cache-hit branch
(lines 101-118) or the fresh-classification path. In the cache-hit branch the
scalar attribute reads on the `results` relationship list raise
AttributeError, which the outer `except Exception` (lines 269-281) converts
into DatabaseException(operation="text_moderation"). -/
def handle_text_moderation (env : TextModerationEnv)
    (request : ModerationTextRequest) (db : DB) : TextModerationRun :=
  if !(env.validate_email request.email) then
    { response := .error (.validationError "email"), db := db,
      background_tasks := [], events := [] }
  else
    let sanitized_content := sanitize_input request.content
    if !(env.validate_text_content sanitized_content).1 then
      { response := .error (.validationError "content"), db := db,
        background_tasks := [], events := [] }
    else
      let content_hash := hash_content sanitized_content
      match queryFirstRequest db content_hash request.email with
      | some existing =>
        if existing.status = RequestStatus.completed then
          match scalarResultAttrs (requestResults db existing) with
          | some (c, conf, reas, raw) =>
            { response := .ok
                { request_id := existing.id, classification := c,
                  confidence := conf, reasoning := reas,
                  status := existing.status.value, llm_response := raw },
              db := db, background_tasks := [], events := [] }
          | none =>
            { response := .error (.databaseError "text_moderation"), db := db,
              background_tasks := [], events := [] }
        else
          moderateFresh env.classify_text request.email sanitized_content
            content_hash ContentType.text db
      | none =>
        moderateFresh env.classify_text request.email sanitized_content
          content_hash ContentType.text db

/-- The fingerprint the text handler stores and matches on (lines 84 and 93):
the content hash of the sanitized content. -/
def textFingerprint (content : String) : String :=
  hash_content (sanitize_input content)

/-! ## app/services/notification_service.py -/

/-- notification_service.py lines 14-16. -/
def MAX_RETRIES : Nat := 3
def RETRY_DELAY : Nat := 1

/-- app/core/config.py: the two channel credentials, each `str | None = None`. -/
structure Settings where
  brevo_api_key : Option String
  slack_webhook_url : Option String
deriving DecidableEq, Repr

/-- Python truthiness of an optional string setting
(`if not settings.brevo_api_key`): None and "" are falsy. -/
def truthy : Option String → Bool
  | none => false
  | some s => s != ""

/-- What one `requests.post(...)` call resolves to: an HTTP response with a
status code, or a raised `requests.exceptions.RequestException`. -/
inductive HttpResult
  | response (status_code : Nat)
  | requestException (message : String)
deriving DecidableEq, Repr

/-- Observable actions of a channel delivery: the HTTP post of attempt `k`
(0-based, the loop variable `attempt`), a `time.sleep(seconds)`, and a
NotificationLog row written by `_log_notification_attempt`. -/
inductive NotifyAction
  | post (attempt : Nat)
  | sleep (seconds : Nat)
  | logRow (channel status : String)
deriving DecidableEq, Repr

/-- The raised `NotificationServiceException` (app/core/exceptions.py). -/
structure NotificationServiceError where
  message : String
  channel : String
deriving DecidableEq, Repr

/-- Result of one channel delivery: the function's return value or the raised
NotificationServiceException, the store afterwards, and the action trace. -/
structure ChannelRun where
  outcome : Except NotificationServiceError Bool
  db : DB
  actions : List NotifyAction
deriving DecidableEq, Repr

/-- notification_service.py lines 281-315, `_log_notification_attempt`:
append one NotificationLog row and commit (the commit is modelled as
succeeding; the function swallows its own logging errors). -/
def log_notification_attempt (db : DB) (request_id : Nat)
    (channel status : String) : DB :=
  { db with notification_logs :=
      db.notification_logs ++ [{ request_id := request_id, channel := channel,
                                 status := status }] }

/-- notification_service.py lines 317-325, `_log_mock_notification`:
log one row and return True. -/
def log_mock_notification (db : DB) (request_id : Nat)
    (channel status : String) : ChannelRun :=
  { outcome := .ok true,
    db := log_notification_attempt db request_id channel status,
    actions := [.logRow channel status] }

/-- The `for attempt in range(MAX_RETRIES)` body shared verbatim by
`send_email_notification` (lines 82-134) and `send_slack_notification`
(lines 211-261), parameterised by the success status code (201 for Brevo,
200 for Slack) and the channel name. `net k` is what the post of attempt `k`
resolves to. `fuel` is the number of loop iterations left; the loop is
entered with `attempt = 0`, `fuel = MAX_RETRIES`.
- success code: log one "sent" row, return True;
- other status code: log nothing, retry immediately (no sleep);
- RequestException before the last attempt: `time.sleep(RETRY_DELAY * 2**attempt)`
  and retry;
- RequestException on the last attempt: raise NotificationServiceException
  (no row is logged on this path);
- loop exhausted (every attempt returned a non-success status): log one
  "failed" row after the loop and return False. -/
def channelRetryLoop (net : Nat → HttpResult) (success_code : Nat)
    (channel : String) (request_id : Nat) :
    Nat → Nat → DB → ChannelRun
  | _attempt, 0, db =>
    { outcome := .ok false,
      db := log_notification_attempt db request_id channel "failed",
      actions := [.logRow channel "failed"] }
  | attempt, fuel + 1, db =>
    match net attempt with
    | .response code =>
      if code == success_code then
        { outcome := .ok true,
          db := log_notification_attempt db request_id channel "sent",
          actions := [.post attempt, .logRow channel "sent"] }
      else
        let rest := channelRetryLoop net success_code channel request_id
          (attempt + 1) fuel db
        { rest with actions := .post attempt :: rest.actions }
    | .requestException msg =>
      if attempt < MAX_RETRIES - 1 then
        let rest := channelRetryLoop net success_code channel request_id
          (attempt + 1) fuel db
        { rest with actions := NotifyAction.post attempt ::
            NotifyAction.sleep (RETRY_DELAY * 2 ^ attempt) :: rest.actions }
      else
        { outcome := .error { message := msg, channel := channel },
          db := db, actions := [.post attempt] }

/-- notification_service.py lines 18-153, `send_email_notification`:
unconfigured Brevo key → single mock "sent" row and True; otherwise the retry
loop against the Brevo API (success status 201). -/
def send_email_notification (settings : Settings) (net : Nat → HttpResult)
    (to_email classification reasoning : String) (db : DB) (request_id : Nat) :
    ChannelRun :=
  if !(truthy settings.brevo_api_key) then
    log_mock_notification db request_id "email" "sent"
  else
    channelRetryLoop net 201 "email" request_id 0 MAX_RETRIES db

/-- notification_service.py lines 155-279, `send_slack_notification`:
unconfigured webhook URL → single mock "sent" row and True; otherwise the
retry loop against the Slack webhook (success status 200). -/
def send_slack_notification (settings : Settings) (net : Nat → HttpResult)
    (classification reasoning : String) (db : DB) (request_id : Nat) :
    ChannelRun :=
  if !(truthy settings.slack_webhook_url) then
    log_mock_notification db request_id "slack" "sent"
  else
    channelRetryLoop net 200 "slack" request_id 0 MAX_RETRIES db

/-- Result of one dispatcher run: the store, the concatenated channel action
traces, and the final `(email_success, slack_success)` summary the function
logs — `none` when the dispatcher returned early for a "safe"
classification. -/
structure AlertRun where
  db : DB
  actions : List NotifyAction
  summary : Option (Bool × Bool)
deriving DecidableEq, Repr

/-- notification_service.py lines 327-395, `send_inappropriate_content_alert`:
early return for "safe"; otherwise the email channel runs inside its own
`try/except NotificationServiceException` (a raised exception only forces
`email_success = False`), then the slack channel likewise. The function
itself never raises. -/
def send_inappropriate_content_alert (settings : Settings)
    (emailNet slackNet : Nat → HttpResult)
    (to_email classification reasoning : String) (db : DB) (request_id : Nat) :
    AlertRun :=
  if classification == "safe" then
    { db := db, actions := [], summary := none }
  else
    let emailRun := send_email_notification settings emailNet to_email
      classification reasoning db request_id
    let email_success :=
      match emailRun.outcome with
      | .ok b => b
      | .error _ => false
    let slackRun := send_slack_notification settings slackNet classification
      reasoning emailRun.db request_id
    let slack_success :=
      match slackRun.outcome with
      | .ok b => b
      | .error _ => false
    { db := slackRun.db, actions := emailRun.actions ++ slackRun.actions,
      summary := some (email_success, slack_success) }

/-- The NotificationLog rows a channel delivery appends, as a function of its
outcome: a successful return logs one "sent" row, a False return (all attempts
got non-success statuses) logs one "failed" row after the loop, and a raised
NotificationServiceException logs nothing. -/
def outcomeRows (request_id : Nat) (channel : String) :
    Except NotificationServiceError Bool → List NotificationLog
  | .ok true => [{ request_id := request_id, channel := channel, status := "sent" }]
  | .ok false => [{ request_id := request_id, channel := channel, status := "failed" }]
  | .error _ => []

/-- The sleep durations of an action trace, in order. -/
def sleepDurations (l : List NotifyAction) : List Nat :=
  l.filterMap (fun a => match a with | .sleep d => some d | _ => none)

/-- The number of HTTP posts (delivery attempts) in an action trace. -/
def postCount (l : List NotifyAction) : Nat :=
  (l.filter (fun a => match a with | .post _ => true | _ => false)).length

/-! ### Helper lemmas about the retry loop -/

theorem channelRetryLoop_logs (net : Nat → HttpResult) (sc : Nat) (ch : String)
    (id : Nat) : ∀ (fuel attempt : Nat) (db : DB),
    (channelRetryLoop net sc ch id attempt fuel db).db.notification_logs =
      db.notification_logs ++
        outcomeRows id ch (channelRetryLoop net sc ch id attempt fuel db).outcome := by
  intro fuel
  induction fuel with
  | zero =>
    intro attempt db
    simp [channelRetryLoop, outcomeRows, log_notification_attempt]
  | succ n ih =>
    intro attempt db
    simp only [channelRetryLoop]
    cases hnet : net attempt with
    | response code =>
      by_cases hc : (code == sc) = true
      · simp [hc, outcomeRows, log_notification_attempt]
      · simp only [hc, if_false, Bool.false_eq_true]
        exact ih (attempt + 1) db
    | requestException msg =>
      by_cases ha : attempt < MAX_RETRIES - 1
      · simp only [ha, if_true]
        exact ih (attempt + 1) db
      · simp [ha, outcomeRows]

theorem channelRetryLoop_error_db (net : Nat → HttpResult) (sc : Nat)
    (ch : String) (id : Nat) : ∀ (fuel attempt : Nat) (db : DB)
    (e : NotificationServiceError),
    (channelRetryLoop net sc ch id attempt fuel db).outcome = .error e →
    (channelRetryLoop net sc ch id attempt fuel db).db = db := by
  intro fuel
  induction fuel with
  | zero =>
    intro attempt db e h
    simp [channelRetryLoop] at h
  | succ n ih =>
    intro attempt db e h
    simp only [channelRetryLoop] at h ⊢
    cases hnet : net attempt with
    | response code =>
      simp only [hnet] at h ⊢
      by_cases hc : (code == sc) = true
      · simp [hc] at h
      · simp only [hc, if_false, Bool.false_eq_true] at h ⊢
        exact ih (attempt + 1) db e h
    | requestException msg =>
      simp only [hnet] at h ⊢
      by_cases ha : attempt < MAX_RETRIES - 1
      · simp only [ha, if_true] at h ⊢
        exact ih (attempt + 1) db e h
      · simp [ha]

theorem channelRetryLoop_postCount (net : Nat → HttpResult) (sc : Nat)
    (ch : String) (id : Nat) : ∀ (fuel attempt : Nat) (db : DB),
    postCount (channelRetryLoop net sc ch id attempt fuel db).actions ≤ fuel := by
  intro fuel
  induction fuel with
  | zero =>
    intro attempt db
    simp [channelRetryLoop, postCount]
  | succ n ih =>
    intro attempt db
    simp only [channelRetryLoop]
    cases hnet : net attempt with
    | response code =>
      by_cases hc : (code == sc) = true
      · simp [hc, postCount]
      · simp only [hc, if_false, Bool.false_eq_true]
        have h2 := ih (attempt + 1) db
        simp [postCount, List.filter_cons] at h2 ⊢
        omega
    | requestException msg =>
      by_cases ha : attempt < MAX_RETRIES - 1
      · simp only [ha, if_true]
        have h2 := ih (attempt + 1) db
        simp [postCount, List.filter_cons] at h2 ⊢
        omega
      · simp [ha, postCount]

theorem channelRetryLoop_sleeps (net : Nat → HttpResult) (sc : Nat)
    (ch : String) (id : Nat) : ∀ (fuel attempt : Nat) (db : DB) (d : Nat),
    NotifyAction.sleep d ∈ (channelRetryLoop net sc ch id attempt fuel db).actions →
    ∃ k m, k < MAX_RETRIES - 1 ∧ d = RETRY_DELAY * 2 ^ k ∧
      net k = .requestException m := by
  intro fuel
  induction fuel with
  | zero =>
    intro attempt db d h
    simp [channelRetryLoop] at h
  | succ n ih =>
    intro attempt db d h
    simp only [channelRetryLoop] at h
    cases hnet : net attempt with
    | response code =>
      simp only [hnet] at h
      by_cases hc : (code == sc) = true
      · simp [hc] at h
      · simp only [hc, if_false, Bool.false_eq_true, List.mem_cons] at h
        rcases h with h | h
        · exact absurd h (by simp)
        · exact ih (attempt + 1) db d h
    | requestException msg =>
      simp only [hnet] at h
      by_cases ha : attempt < MAX_RETRIES - 1
      · simp only [ha, if_true, List.mem_cons] at h
        rcases h with h | h | h
        · exact absurd h (by simp)
        · exact ⟨attempt, msg, ha, by simpa using h, by simpa using hnet⟩
        · exact ih (attempt + 1) db d h
      · simp [ha] at h

/-! ### Claim C2 -/

/-- C2 counterexample: with Brevo configured and every attempt resolving to an
HTTP 500 response, the email channel makes 3 delivery attempts but writes only
ONE NotificationLog row (a single "failed" row after the loop), not one row
per attempt and not 3 rows — and the trace shows no row is written between
attempts. -/
theorem c2_counterexample :
    postCount (send_email_notification ⟨some "key", some "hook"⟩
      (fun _ => HttpResult.response 500) "user@example.com" "toxic" "reason"
      ⟨[], [], [], 0⟩ 7).actions = 3 ∧
    (send_email_notification ⟨some "key", some "hook"⟩
      (fun _ => HttpResult.response 500) "user@example.com" "toxic" "reason"
      ⟨[], [], [], 0⟩ 7).actions =
      [.post 0, .post 1, .post 2, .logRow "email" "failed"] ∧
    (send_email_notification ⟨some "key", some "hook"⟩
      (fun _ => HttpResult.response 500) "user@example.com" "toxic" "reason"
      ⟨[], [], [], 0⟩ 7).db.notification_logs.length = 1 ∧
    (send_email_notification ⟨some "key", some "hook"⟩
      (fun _ => HttpResult.response 500) "user@example.com" "toxic" "reason"
      ⟨[], [], [], 0⟩ 7).db.notification_logs.length ≠ 3 := by
  decide

/-- C2 (amended): a configured channel's delivery appends at most one
NotificationLog row, determined by its outcome — one "sent" row when an
attempt succeeds, one "failed" row (written only after the loop) when every
attempt returns a non-success status, and NO row at all when the final
attempt raises a transport exception (the NotificationServiceException
propagates instead). Stated for both the email and the slack channel. -/
theorem c2_amended_attempt_logging (settings : Settings)
    (netE netS : Nat → HttpResult) (to_email classification reasoning : String)
    (db db2 : DB) (request_id : Nat)
    (hbrevo : truthy settings.brevo_api_key = true)
    (hslack : truthy settings.slack_webhook_url = true) :
    ((send_email_notification settings netE to_email classification reasoning
        db request_id).db.notification_logs =
      db.notification_logs ++ outcomeRows request_id "email"
        (send_email_notification settings netE to_email classification reasoning
          db request_id).outcome) ∧
    ((send_slack_notification settings netS classification reasoning
        db2 request_id).db.notification_logs =
      db2.notification_logs ++ outcomeRows request_id "slack"
        (send_slack_notification settings netS classification reasoning
          db2 request_id).outcome) := by
  constructor
  · simp only [send_email_notification, hbrevo, Bool.not_true,
      Bool.false_eq_true, if_false]
    exact channelRetryLoop_logs netE 201 "email" request_id MAX_RETRIES 0 db
  · simp only [send_slack_notification, hslack, Bool.not_true,
      Bool.false_eq_true, if_false]
    exact channelRetryLoop_logs netS 200 "slack" request_id MAX_RETRIES 0 db2

/-- Witness for c2_amended_attempt_logging at a concrete input: with both
channels configured, an all-500 email run and a first-attempt-success slack
run produce exactly the rows outcomeRows prescribes. -/
theorem c2_amended_attempt_logging_witness :
    (send_email_notification ⟨some "key", some "hook"⟩
      (fun _ => HttpResult.response 500) "user@example.com" "toxic" "reason"
      ⟨[], [], [], 0⟩ 7).db.notification_logs =
      [] ++ outcomeRows 7 "email"
        (send_email_notification ⟨some "key", some "hook"⟩
          (fun _ => HttpResult.response 500) "user@example.com" "toxic" "reason"
          ⟨[], [], [], 0⟩ 7).outcome :=
  (c2_amended_attempt_logging ⟨some "key", some "hook"⟩
    (fun _ => HttpResult.response 500) (fun _ => HttpResult.response 200)
    "user@example.com" "toxic" "reason" ⟨[], [], [], 0⟩ ⟨[], [], [], 0⟩ 7
    (by decide) (by decide)).1

/-! ### Claim C3 -/

/-- C3 counterexample: with Brevo configured and every attempt raising a
request exception, the channel makes 3 attempts and the inter-attempt delays
are 1 and 2 time units — a delay of 4 never occurs (there is no fourth
attempt to wait for), so the inter-attempt delays are not 1, 2, 4. -/
theorem c3_counterexample :
    sleepDurations (send_email_notification ⟨some "key", some "hook"⟩
      (fun _ => HttpResult.requestException "connection error")
      "user@example.com" "toxic" "reason" ⟨[], [], [], 0⟩ 7).actions = [1, 2] ∧
    postCount (send_email_notification ⟨some "key", some "hook"⟩
      (fun _ => HttpResult.requestException "connection error")
      "user@example.com" "toxic" "reason" ⟨[], [], [], 0⟩ 7).actions = 3 ∧
    sleepDurations (send_email_notification ⟨some "key", some "hook"⟩
      (fun _ => HttpResult.requestException "connection error")
      "user@example.com" "toxic" "reason" ⟨[], [], [], 0⟩ 7).actions ≠
      [1, 2, 4] := by
  decide

/-- C3 (amended): per configured channel at most MAX_RETRIES = 3 attempts are
made; a delay is inserted only after an attempt that fails with a request
exception and is not the last one, and the delay after 0-based attempt k
equals RETRY_DELAY * 2^k with k < 2 — i.e. the only possible delays are
1 and 2 time units, never 4; attempts that fail with a non-success HTTP
status retry immediately with no delay. Stated for both channels. -/
theorem c3_amended_backoff (settings : Settings)
    (netE netS : Nat → HttpResult) (to_email classification reasoning : String)
    (db db2 : DB) (request_id : Nat)
    (hbrevo : truthy settings.brevo_api_key = true)
    (hslack : truthy settings.slack_webhook_url = true) :
    (postCount (send_email_notification settings netE to_email classification
        reasoning db request_id).actions ≤ MAX_RETRIES ∧
      ∀ d, NotifyAction.sleep d ∈ (send_email_notification settings netE
          to_email classification reasoning db request_id).actions →
        ∃ k m, k < MAX_RETRIES - 1 ∧ d = RETRY_DELAY * 2 ^ k ∧
          netE k = .requestException m) ∧
    (postCount (send_slack_notification settings netS classification
        reasoning db2 request_id).actions ≤ MAX_RETRIES ∧
      ∀ d, NotifyAction.sleep d ∈ (send_slack_notification settings netS
          classification reasoning db2 request_id).actions →
        ∃ k m, k < MAX_RETRIES - 1 ∧ d = RETRY_DELAY * 2 ^ k ∧
          netS k = .requestException m) := by
  constructor
  · simp only [send_email_notification, hbrevo, Bool.not_true,
      Bool.false_eq_true, if_false]
    exact ⟨channelRetryLoop_postCount netE 201 "email" request_id MAX_RETRIES 0 db,
      fun d => channelRetryLoop_sleeps netE 201 "email" request_id MAX_RETRIES 0 db d⟩
  · simp only [send_slack_notification, hslack, Bool.not_true,
      Bool.false_eq_true, if_false]
    exact ⟨channelRetryLoop_postCount netS 200 "slack" request_id MAX_RETRIES 0 db2,
      fun d => channelRetryLoop_sleeps netS 200 "slack" request_id MAX_RETRIES 0 db2 d⟩

/-- Witness for c3_amended_backoff at a concrete input: the all-exception
email run stays within 3 attempts and its observed delay of 1 is justified
by the theorem. -/
theorem c3_amended_backoff_witness :
    postCount (send_email_notification ⟨some "key", some "hook"⟩
      (fun _ => HttpResult.requestException "connection error")
      "user@example.com" "toxic" "reason" ⟨[], [], [], 0⟩ 7).actions ≤
      MAX_RETRIES ∧
    (NotifyAction.sleep 1 ∈ (send_email_notification ⟨some "key", some "hook"⟩
      (fun _ => HttpResult.requestException "connection error")
      "user@example.com" "toxic" "reason" ⟨[], [], [], 0⟩ 7).actions →
      ∃ k m, k < MAX_RETRIES - 1 ∧ 1 = RETRY_DELAY * 2 ^ k ∧
        (fun _ => HttpResult.requestException "connection error") k =
          HttpResult.requestException m) :=
  ⟨(c3_amended_backoff ⟨some "key", some "hook"⟩
      (fun _ => HttpResult.requestException "connection error")
      (fun _ => HttpResult.response 200) "user@example.com" "toxic" "reason"
      ⟨[], [], [], 0⟩ ⟨[], [], [], 0⟩ 7 (by decide) (by decide)).1.1,
   (c3_amended_backoff ⟨some "key", some "hook"⟩
      (fun _ => HttpResult.requestException "connection error")
      (fun _ => HttpResult.response 200) "user@example.com" "toxic" "reason"
      ⟨[], [], [], 0⟩ ⟨[], [], [], 0⟩ 7 (by decide) (by decide)).1.2 1⟩

/-! ### Claim C5 -/

/-- C5: the dispatcher send_inappropriate_content_alert never raises — each
channel call sits in its own `try/except NotificationServiceException`, so the
function always returns normally with its final summary — and a failure of the
email channel never prevents the slack channel from being attempted and
recorded: the dispatcher's store and action trace always extend the email
run with the full slack run, and when the email channel fails by exception it
leaves the store untouched, so the slack channel runs exactly as it would have
on the original store. -/
theorem c5_notification_failure_contained (settings : Settings)
    (emailNet slackNet : Nat → HttpResult)
    (to_email classification reasoning : String) (db : DB) (request_id : Nat)
    (hflag : classification ≠ "safe") :
    (∃ es ss, (send_inappropriate_content_alert settings emailNet slackNet
      to_email classification reasoning db request_id).summary = some (es, ss)) ∧
    (send_inappropriate_content_alert settings emailNet slackNet to_email
        classification reasoning db request_id).actions =
      (send_email_notification settings emailNet to_email classification
        reasoning db request_id).actions ++
      (send_slack_notification settings slackNet classification reasoning
        (send_email_notification settings emailNet to_email classification
          reasoning db request_id).db request_id).actions ∧
    (send_inappropriate_content_alert settings emailNet slackNet to_email
        classification reasoning db request_id).db =
      (send_slack_notification settings slackNet classification reasoning
        (send_email_notification settings emailNet to_email classification
          reasoning db request_id).db request_id).db ∧
    (∀ e, (send_email_notification settings emailNet to_email classification
        reasoning db request_id).outcome = .error e →
      (send_email_notification settings emailNet to_email classification
        reasoning db request_id).db = db) := by
  have hbeq : (classification == "safe") = false := by
    simpa using hflag
  refine ⟨⟨?_, ?_, ?_⟩, ?_, ?_, ?_⟩
  · exact match (send_email_notification settings emailNet to_email
      classification reasoning db request_id).outcome with
      | .ok b => b | .error _ => false
  · exact match (send_slack_notification settings slackNet classification
      reasoning (send_email_notification settings emailNet to_email
        classification reasoning db request_id).db request_id).outcome with
      | .ok b => b | .error _ => false
  · simp only [send_inappropriate_content_alert, hbeq, Bool.false_eq_true,
      if_false]
  · simp only [send_inappropriate_content_alert, hbeq, Bool.false_eq_true,
      if_false]
  · simp only [send_inappropriate_content_alert, hbeq, Bool.false_eq_true,
      if_false]
  · intro e he
    by_cases hc : truthy settings.brevo_api_key = true
    · simp only [send_email_notification, hc, Bool.not_true,
        Bool.false_eq_true, if_false] at he ⊢
      exact channelRetryLoop_error_db emailNet 201 "email" request_id
        MAX_RETRIES 0 db e he
    · simp only [send_email_notification, Bool.not_eq_true] at he
      simp only [eq_false_of_ne_true hc, Bool.not_false, if_true,
        log_mock_notification] at he
      exact Except.noConfusion he

/-- Witness for c5_notification_failure_contained at a concrete input: a
"toxic" dispatch with an always-raising email channel and an always-succeeding
slack channel still returns a summary. -/
theorem c5_notification_failure_contained_witness :
    ∃ es ss, (send_inappropriate_content_alert ⟨some "key", some "hook"⟩
      (fun _ => HttpResult.requestException "connection error")
      (fun _ => HttpResult.response 200) "user@example.com" "toxic" "reason"
      ⟨[], [], [], 0⟩ 7).summary = some (es, ss) :=
  (c5_notification_failure_contained ⟨some "key", some "hook"⟩
    (fun _ => HttpResult.requestException "connection error")
    (fun _ => HttpResult.response 200) "user@example.com" "toxic" "reason"
    ⟨[], [], [], 0⟩ 7 (by decide)).1

/-! ### Claim C9 -/

/-- C9: a channel whose configuration is absent is not skipped silently — the
dispatcher records exactly one synthetic NotificationLog row with outcome
"sent" for that channel and request (the `_log_mock_notification` path) and
reports success. Stated for the email channel without a Brevo API key and for
the slack channel without a webhook URL. -/
theorem c9_unconfigured_channel_synthetic_sent (settings : Settings)
    (netE netS : Nat → HttpResult) (to_email classification reasoning : String)
    (db db2 : DB) (request_id : Nat) :
    (truthy settings.brevo_api_key = false →
      send_email_notification settings netE to_email classification reasoning
        db request_id =
      { outcome := .ok true,
        db := { db with notification_logs := db.notification_logs ++
          [{ request_id := request_id, channel := "email", status := "sent" }] },
        actions := [.logRow "email" "sent"] }) ∧
    (truthy settings.slack_webhook_url = false →
      send_slack_notification settings netS classification reasoning
        db2 request_id =
      { outcome := .ok true,
        db := { db2 with notification_logs := db2.notification_logs ++
          [{ request_id := request_id, channel := "slack", status := "sent" }] },
        actions := [.logRow "slack" "sent"] }) := by
  constructor
  · intro h
    simp [send_email_notification, h, log_mock_notification,
      log_notification_attempt]
  · intro h
    simp [send_slack_notification, h, log_mock_notification,
      log_notification_attempt]

/-- Witness for c9_unconfigured_channel_synthetic_sent at a concrete input:
with no Brevo key configured the email channel writes the single synthetic
"sent" row. -/
theorem c9_unconfigured_channel_synthetic_sent_witness :
    send_email_notification ⟨none, none⟩ (fun _ => HttpResult.response 500)
      "user@example.com" "toxic" "reason" ⟨[], [], [], 0⟩ 7 =
    { outcome := .ok true,
      db := { requests := [], results := [],
              notification_logs :=
                [{ request_id := 7, channel := "email", status := "sent" }],
              next_id := 0 },
      actions := [.logRow "email" "sent"] } := by
  have h := (c9_unconfigured_channel_synthetic_sent ⟨none, none⟩
    (fun _ => HttpResult.response 500) (fun _ => HttpResult.response 200)
    "user@example.com" "toxic" "reason" ⟨[], [], [], 0⟩ ⟨[], [], [], 0⟩ 7).1
    (by decide)
  simpa using h

/-! ### Helper lemmas about the moderation handler -/

theorem map_setStatus_id (l : List ModerationRequest) (id : Nat)
    (st : RequestStatus) (h : ∀ r ∈ l, r.id ≠ id) :
    l.map (fun r => if r.id == id then { r with status := st } else r) = l := by
  induction l with
  | nil => rfl
  | cons a t ih =>
    simp only [List.map_cons, List.cons.injEq]
    constructor
    · rw [if_neg]
      simp only [beq_iff_eq]
      exact h a (List.mem_cons_self a t)
    · exact ih (fun r hr => h r (List.mem_cons_of_mem a hr))

theorem setRequestStatus_append (l : List ModerationRequest)
    (req : ModerationRequest) (st : RequestStatus)
    (h : ∀ r ∈ l, r.id ≠ req.id) :
    (l ++ [req]).map
      (fun r => if r.id == req.id then { r with status := st } else r) =
      l ++ [{ req with status := st }] := by
  rw [List.map_append, map_setStatus_id l req.id st h]
  simp

/-- On a validated request that is not a cache hit (the first matching row, if
any, is not `completed`), the handler takes the fresh-classification path. -/
theorem handle_text_fresh (env : TextModerationEnv)
    (request : ModerationTextRequest) (db : DB)
    (h1 : env.validate_email request.email = true)
    (h2 : (env.validate_text_content (sanitize_input request.content)).1 = true)
    (h3 : dedupHit db request.email (textFingerprint request.content) = none) :
    handle_text_moderation env request db =
      moderateFresh env.classify_text request.email
        (sanitize_input request.content) (textFingerprint request.content)
        ContentType.text db := by
  simp only [handle_text_moderation, h1, Bool.not_true, Bool.false_eq_true,
    if_false, h2]
  simp only [dedupHit, textFingerprint, hash_content] at h3 ⊢
  cases hq : queryFirstRequest db
      (create_content_hash (sanitize_input request.content)) request.email with
  | none => simp [hq]
  | some r =>
    rw [hq] at h3
    by_cases hst : r.status = RequestStatus.completed
    · simp [hst] at h3
    · simp [hq, hst]

/-- On the fresh path the first two events are the commit of the pending
request row followed by the classifier call on the sanitized payload,
whatever the classifier then does. -/
theorem fresh_events_take2
    (classify : String → Except String (String × Rat × String × String))
    (email payload content_hash : String) (ctype : ContentType) (db : DB) :
    (moderateFresh classify email payload content_hash ctype db).events.take 2 =
      [ModEvent.commitPendingRequest db.next_id, ModEvent.classifyCall payload] := by
  simp only [moderateFresh]
  cases hcl : classify payload with
  | error e => simp
  | ok v =>
    obtain ⟨c, conf, reas, raw⟩ := v
    by_cases hc : (c != "safe") = true <;> simp [hc]

/-! ### Claim C1 -/

set_option maxRecDepth 100000 in
/-- C1 (code bug witness): the idempotency cache-hit path is broken. With a
store already holding a `completed` request for (owner, fingerprint) together
with its stored result row, resubmitting the same content does NOT return the
stored classification/confidence/reasoning: `existing_request.results` is the
relationship LIST, the scalar attribute reads on it raise AttributeError, and
the outer `except Exception` turns that into
DatabaseException(operation="text_moderation"). The store is left untouched,
no background task is scheduled, and the classifier is not invoked (the event
trace is empty), whatever the classifier would have answered. -/
theorem c1_cache_hit_attribute_error
    (classify : String → Except String (String × Rat × String × String)) :
    handle_text_moderation
      ⟨fun _ => true, fun _ => (true, none), classify⟩
      ⟨"user@example.com", "hello moderator"⟩
      ⟨[⟨0, "user@example.com", .text, textFingerprint "hello moderator",
         .completed⟩],
       [⟨1, 0, "safe", 99 / 100, "No harmful content detected", "mock"⟩],
       [], 2⟩ =
    ⟨.error (.databaseError "text_moderation"),
     ⟨[⟨0, "user@example.com", .text, textFingerprint "hello moderator",
        .completed⟩],
      [⟨1, 0, "safe", 99 / 100, "No harmful content detected", "mock"⟩],
      [], 2⟩,
     [], []⟩ := by
  rfl

/-! ### Claim C4 -/

/-- C4 counterexample: the dedup lookup does not consider only `completed`
requests — it takes the FIRST row matching (owner, fingerprint) regardless of
status. In a store where an older `failed` request precedes a `completed`
request with the same (owner, fingerprint), a completed match exists yet the
lookup reports no cache hit: the failed row's presence prevents the completed
row from being returned. -/
theorem c4_counterexample :
    (∃ r ∈ ((⟨[⟨0, "user@example.com", .text, "h", .failed⟩,
               ⟨1, "user@example.com", .text, "h", .completed⟩],
              [], [], 2⟩ : DB)).requests,
      r.status = RequestStatus.completed ∧ r.user_email = "user@example.com" ∧
        r.content_hash = "h") ∧
    dedupHit (⟨[⟨0, "user@example.com", .text, "h", .failed⟩,
                ⟨1, "user@example.com", .text, "h", .completed⟩],
               [], [], 2⟩ : DB)
      "user@example.com" "h" = none := by
  decide

/-- C4 (amended): the dedup lookup filters only on (owner, fingerprint) and
inspects the status of the first matching row. A request that is not
`completed` (in particular a `failed` one) is never returned as a cache hit,
and every returned hit is a `completed` request matching the key — but when
the first matching row is not `completed`, the lookup reports a miss even if a
later `completed` row with the same key exists, so an earlier failed request
shadows a completed one. -/
theorem c4_amended_dedup_scope (db : DB) (e h : String) :
    (∀ r, dedupHit db e h = some r →
      r.status = RequestStatus.completed ∧ r.user_email = e ∧
        r.content_hash = h ∧ r ∈ db.requests) ∧
    (∀ r, queryFirstRequest db h e = some r →
      r.status ≠ RequestStatus.completed → dedupHit db e h = none) := by
  constructor
  · intro r hr
    simp only [dedupHit] at hr
    cases hq : queryFirstRequest db h e with
    | none => rw [hq] at hr; exact absurd hr (by simp)
    | some r0 =>
      rw [hq] at hr
      by_cases hst : r0.status = RequestStatus.completed
      · simp only [hst, if_true] at hr
        obtain rfl : r0 = r := by simpa using hr
        have hmem : r0 ∈ db.requests.filter
            (fun x => x.content_hash == h && x.user_email == e) := by
          cases hl : db.requests.filter
              (fun x => x.content_hash == h && x.user_email == e) with
          | nil => simp [queryFirstRequest, hl] at hq
          | cons a t =>
            simp only [queryFirstRequest, hl, List.head?] at hq
            obtain rfl : a = r0 := by simpa using hq
            simp [hl]
        have := List.mem_filter.mp hmem
        refine ⟨hst, ?_, ?_, this.1⟩
        · simpa using (Bool.and_elim_right this.2)
        · simpa using (Bool.and_elim_left this.2)
      · simp only [hst, if_false] at hr
        exact absurd hr (by simp)
  · intro r hq hst
    simp only [dedupHit, hq, if_neg hst]

/-- Witness for c4_amended_dedup_scope at a concrete input: in the two-row
store of the counterexample the first matching row is the failed one, so the
lookup reports a miss. -/
theorem c4_amended_dedup_scope_witness :
    dedupHit (⟨[⟨0, "user@example.com", .text, "h", .failed⟩,
                ⟨1, "user@example.com", .text, "h", .completed⟩],
               [], [], 2⟩ : DB)
      "user@example.com" "h" = none :=
  (c4_amended_dedup_scope _ "user@example.com" "h").2
    ⟨0, "user@example.com", .text, "h", .failed⟩
    (by decide) (by decide)

/-! ### Claim C6 -/

/-- C6: on the fresh-classification path, when the classifier raises, the
request row transitions to `failed`, the typed LLMServiceException is
surfaced to the caller, and no ModerationResult row is written; when the
classifier succeeds, the result row is persisted and the request row
transitions to `completed`, with the response carrying the classification
tuple and status "completed". -/
theorem c6_classification_outcome (env : TextModerationEnv)
    (request : ModerationTextRequest) (db : DB)
    (h1 : env.validate_email request.email = true)
    (h2 : (env.validate_text_content (sanitize_input request.content)).1 = true)
    (h3 : dedupHit db request.email (textFingerprint request.content) = none)
    (hfresh : ∀ r ∈ db.requests, r.id ≠ db.next_id) :
    (∀ e, env.classify_text (sanitize_input request.content) = .error e →
      (handle_text_moderation env request db).response =
        .error (.llmServiceError ("Text classification failed: " ++ e)) ∧
      (handle_text_moderation env request db).db.requests =
        db.requests ++
          [⟨db.next_id, request.email, .text, textFingerprint request.content,
            .failed⟩] ∧
      (handle_text_moderation env request db).db.results = db.results) ∧
    (∀ c conf reas raw,
      env.classify_text (sanitize_input request.content) =
        .ok (c, conf, reas, raw) →
      (handle_text_moderation env request db).response =
        .ok ⟨db.next_id, c, conf, reas, "completed", raw⟩ ∧
      (handle_text_moderation env request db).db.requests =
        db.requests ++
          [⟨db.next_id, request.email, .text, textFingerprint request.content,
            .completed⟩] ∧
      (handle_text_moderation env request db).db.results =
        db.results ++ [⟨db.next_id + 1, db.next_id, c, conf, reas, raw⟩]) := by
  rw [handle_text_fresh env request db h1 h2 h3]
  constructor
  · intro e hcl
    simp only [moderateFresh, hcl, setRequestStatus]
    refine ⟨trivial, ?_, trivial⟩
    exact setRequestStatus_append db.requests
      ⟨db.next_id, request.email, .text, textFingerprint request.content,
        .pending⟩ RequestStatus.failed hfresh
  · intro c conf reas raw hcl
    simp only [moderateFresh, hcl, setRequestStatus]
    refine ⟨by simp [RequestStatus.value], ?_, trivial⟩
    exact setRequestStatus_append db.requests
      ⟨db.next_id, request.email, .text, textFingerprint request.content,
        .pending⟩ RequestStatus.completed hfresh

/-- Witness for c6_classification_outcome at a concrete input: an
always-failing classifier on an empty store yields the surfaced
LLMServiceException, the single failed request row, and no result row. -/
theorem c6_classification_outcome_witness :
    (handle_text_moderation
      ⟨fun _ => true, fun _ => (true, none), fun _ => Except.error "boom"⟩
      ⟨"user@example.com", "hello"⟩ ⟨[], [], [], 0⟩).response =
      .error (.llmServiceError ("Text classification failed: " ++ "boom")) ∧
    (handle_text_moderation
      ⟨fun _ => true, fun _ => (true, none), fun _ => Except.error "boom"⟩
      ⟨"user@example.com", "hello"⟩ ⟨[], [], [], 0⟩).db.requests =
      [] ++ [⟨0, "user@example.com", .text, textFingerprint "hello", .failed⟩] ∧
    (handle_text_moderation
      ⟨fun _ => true, fun _ => (true, none), fun _ => Except.error "boom"⟩
      ⟨"user@example.com", "hello"⟩ ⟨[], [], [], 0⟩).db.results = [] :=
  (c6_classification_outcome
    ⟨fun _ => true, fun _ => (true, none), fun _ => Except.error "boom"⟩
    ⟨"user@example.com", "hello"⟩ ⟨[], [], [], 0⟩
    rfl rfl rfl (by simp)).1 "boom" rfl

/-! ### Claim C7 -/

/-- C7: on every cache miss the commit of the new `pending` request row
strictly precedes the classifier invocation in the handler's event trace, so
that — in particular — when the classifier then raises, a request row for the
submission (same id, owner and fingerprint) still exists in the store. -/
theorem c7_pending_committed_before_classify (env : TextModerationEnv)
    (request : ModerationTextRequest) (db : DB)
    (h1 : env.validate_email request.email = true)
    (h2 : (env.validate_text_content (sanitize_input request.content)).1 = true)
    (h3 : dedupHit db request.email (textFingerprint request.content) = none) :
    (handle_text_moderation env request db).events.take 2 =
      [ModEvent.commitPendingRequest db.next_id,
       ModEvent.classifyCall (sanitize_input request.content)] ∧
    (∀ e, env.classify_text (sanitize_input request.content) = .error e →
      ∃ r ∈ (handle_text_moderation env request db).db.requests,
        r.id = db.next_id ∧ r.user_email = request.email ∧
        r.content_hash = textFingerprint request.content) := by
  rw [handle_text_fresh env request db h1 h2 h3]
  refine ⟨fresh_events_take2 _ _ _ _ _ db, ?_⟩
  intro e hcl
  simp only [moderateFresh, hcl, setRequestStatus]
  refine ⟨⟨db.next_id, request.email, .text, textFingerprint request.content,
    .failed⟩, ?_, rfl, rfl, rfl⟩
  simp

/-- Witness for c7_pending_committed_before_classify at a concrete input. -/
theorem c7_pending_committed_before_classify_witness :
    (handle_text_moderation
      ⟨fun _ => true, fun _ => (true, none), fun _ => Except.error "boom"⟩
      ⟨"user@example.com", "hello"⟩ ⟨[], [], [], 0⟩).events.take 2 =
      [ModEvent.commitPendingRequest 0,
       ModEvent.classifyCall (sanitize_input "hello")] :=
  (c7_pending_committed_before_classify
    ⟨fun _ => true, fun _ => (true, none), fun _ => Except.error "boom"⟩
    ⟨"user@example.com", "hello"⟩ ⟨[], [], [], 0⟩ rfl rfl rfl).1

/-! ### Claim C8 -/

/-- C8: a "safe" classification never triggers notification dispatch: the
handler schedules no background task, writes no NotificationLog row, and its
trace is exactly pending-commit, classify, result-commit (no scheduleAlert
event); and even a direct dispatcher call with classification "safe" returns
immediately without touching the store or performing any action. -/
theorem c8_safe_no_notifications (env : TextModerationEnv)
    (request : ModerationTextRequest) (db : DB) (settings : Settings)
    (emailNet slackNet : Nat → HttpResult) (to_email reasoning : String)
    (db2 : DB) (request_id : Nat)
    (h1 : env.validate_email request.email = true)
    (h2 : (env.validate_text_content (sanitize_input request.content)).1 = true)
    (h3 : dedupHit db request.email (textFingerprint request.content) = none) :
    (∀ conf reas raw,
      env.classify_text (sanitize_input request.content) =
        .ok ("safe", conf, reas, raw) →
      (handle_text_moderation env request db).background_tasks = [] ∧
      (handle_text_moderation env request db).db.notification_logs =
        db.notification_logs ∧
      (handle_text_moderation env request db).events =
        [ModEvent.commitPendingRequest db.next_id,
         ModEvent.classifyCall (sanitize_input request.content),
         ModEvent.commitResult db.next_id]) ∧
    send_inappropriate_content_alert settings emailNet slackNet to_email
        "safe" reasoning db2 request_id = ⟨db2, [], none⟩ := by
  constructor
  · intro conf reas raw hcl
    rw [handle_text_fresh env request db h1 h2 h3]
    simp [moderateFresh, hcl, setRequestStatus]
  · rfl

/-- Witness for c8_safe_no_notifications at a concrete input: a safe
classification on an empty store schedules no task and writes no rows. -/
theorem c8_safe_no_notifications_witness :
    (handle_text_moderation
      ⟨fun _ => true, fun _ => (true, none),
       fun _ => Except.ok ("safe", 99 / 100, "ok", "raw")⟩
      ⟨"user@example.com", "hello"⟩ ⟨[], [], [], 0⟩).background_tasks = [] ∧
    (handle_text_moderation
      ⟨fun _ => true, fun _ => (true, none),
       fun _ => Except.ok ("safe", 99 / 100, "ok", "raw")⟩
      ⟨"user@example.com", "hello"⟩ ⟨[], [], [], 0⟩).db.notification_logs =
      ([] : List NotificationLog) ∧
    (handle_text_moderation
      ⟨fun _ => true, fun _ => (true, none),
       fun _ => Except.ok ("safe", 99 / 100, "ok", "raw")⟩
      ⟨"user@example.com", "hello"⟩ ⟨[], [], [], 0⟩).events =
      [ModEvent.commitPendingRequest 0,
       ModEvent.classifyCall (sanitize_input "hello"),
       ModEvent.commitResult 0] :=
  (c8_safe_no_notifications
    ⟨fun _ => true, fun _ => (true, none),
     fun _ => Except.ok ("safe", 99 / 100, "ok", "raw")⟩
    ⟨"user@example.com", "hello"⟩ ⟨[], [], [], 0⟩ ⟨none, none⟩
    (fun _ => HttpResult.response 500) (fun _ => HttpResult.response 500)
    "user@example.com" "r" ⟨[], [], [], 0⟩ 7 rfl rfl rfl).1
    (99 / 100) "ok" "raw" rfl

/-! ### Claim C10 -/

/-- C10: the dedup fingerprint of a text submission is the SHA-256 digest of
the sanitized content (sanitize_input is applied before hashing), so two raw
texts whose sanitized forms coincide get the same fingerprint, the dedup
lookup treats them identically, and the payload handed to the classifier on
the fresh path is the sanitized text, not the raw input. -/
theorem c10_fingerprint_of_sanitized (a b : String)
    (hsan : sanitize_input a = sanitize_input b) :
    textFingerprint a = textFingerprint b ∧
    textFingerprint a = sha256Hex (utf8Bytes (sanitize_input a)) ∧
    (∀ db e, dedupHit db e (textFingerprint a) =
      dedupHit db e (textFingerprint b)) ∧
    (∀ (env : TextModerationEnv) (email : String) (db : DB),
      env.validate_email email = true →
      (env.validate_text_content (sanitize_input a)).1 = true →
      dedupHit db email (textFingerprint a) = none →
      (handle_text_moderation env ⟨email, a⟩ db).events.take 2 =
        [ModEvent.commitPendingRequest db.next_id,
         ModEvent.classifyCall (sanitize_input a)]) := by
  have hfp : textFingerprint a = textFingerprint b := by
    simp only [textFingerprint, hsan]
  refine ⟨hfp, rfl, fun db e => by rw [hfp], fun env email db h1 h2 h3 => ?_⟩
  rw [handle_text_fresh env ⟨email, a⟩ db h1 h2 h3]
  exact fresh_events_take2 _ _ _ _ _ db

/-- Witness for c10_fingerprint_of_sanitized at a concrete input: a text with
an embedded null byte and a text with an embedded BEL control character
sanitize to the same string, hence carry the same fingerprint. -/
theorem c10_fingerprint_of_sanitized_witness :
    textFingerprint "hello\x00 world" = textFingerprint "hello \x07world" :=
  (c10_fingerprint_of_sanitized "hello\x00 world" "hello \x07world"
    (by rfl)).1

/-! ### Sanity examples (executable checks of the embedding) -/

set_option maxRecDepth 100000 in
example : sha256Hex (utf8Bytes "abc") =
    "ba7816bf8f01cfea414140de5dae2223b00361a396177a9cb410ff61f20015ad" := by
  rfl

set_option maxRecDepth 10000 in
example : sanitize_input "hello\x00 world" = "hello world" := by rfl

set_option maxRecDepth 10000 in
example : sanitize_input "  a   b\tc  " = "a  b\tc" := by rfl

end ContentModerator
